import Mathlib

/-!
Verification of the DeepLake vector-store adapter
(`src/dotagent/vectorstores/deeplake.py`).

The adapter wraps an external vector engine (the third-party
`DeepLakeVectorStore`) and an embedding provider.  Both collaborators are
modelled abstractly through their contracts (spec section 6): the engine is a
record of response functions, and every adapter operation additionally returns
the list of engine calls it performed, so that claims about how often and with
which arguments the engine was invoked can be stated.

Numeric payloads (embedding-vector entries, relevance scores) are opaque to the
adapter — it only moves them around — so they are modelled as `Int` rather than
floating point.
-/

/-- A metadata value stored in a record's metadata mapping.  The adapter treats
these opaquely except for injecting an embedding vector under the
`"embedding"` key in `_search`. -/
inductive MetaValue where
  | str : String → MetaValue
  | num : Int → MetaValue
  | vec : List Int → MetaValue
deriving DecidableEq, Repr

/-- A Python dict used as a metadata mapping: an insertion-ordered association
list. -/
abbrev Metadata := List (String × MetaValue)

/-- Python dict assignment `m[k] = v`: replaces the value in place if the key
is present (keeping insertion order), otherwise appends the new pair. -/
def dictSet (m : Metadata) (k : String) (v : MetaValue) : Metadata :=
  if (m.lookup k).isSome then
    m.map (fun p => if p.1 = k then (k, v) else p)
  else
    m ++ [(k, v)]

/-- Modelled from the spec: `Document` lives in `dotagent.schema`, which is not
under `src/`.  Spec section 3: a document is a `page_content` text with a
metadata mapping, immutable once constructed. -/
structure Document where
  page_content : String
  metadata : Metadata
deriving DecidableEq, Repr

/-- Modelled from the spec: `Embeddings` lives in
`dotagent.vectorstores.embeddings.base`, which is not under `src/`.  Spec
section 6: an embedding provider exposes `embed_query` (one text to one
vector) and `embed_documents` (many texts to many vectors, order-preserving,
one vector per text). -/
structure Embeddings where
  embed_query : String → List Int
  embed_documents : List String → List (List Int)

/-- The `filter` argument of a search: either a key-value dict applied
per-field, or an arbitrary predicate callable (source line 238,
`Union[Dict, Callable]`).  The adapter passes it through opaquely. -/
inductive SearchFilter where
  | dict : List (String × Metadata) → SearchFilter
  | func : (Metadata → Bool) → SearchFilter

/-- The keyword arguments of one `self.vectorstore.search(...)` engine call.
The engine is called two ways: the raw-query path passes only `query` and
`exec_option` (source lines 211-214); the vector path passes `embedding`, `k`,
`distance_metric`, `filter`, `exec_option` and `return_tensors` (source lines
314-321).  Absent keywords are `none`. -/
structure SearchCall where
  query : Option String
  embedding : Option (List Int)
  k : Option Nat
  distance_metric : Option String
  filter : Option SearchFilter
  exec_option : Option String
  return_tensors : Option (List String)

/-- The arguments of one `self.vectorstore.add(...)` engine call (source lines
171-180).  `extra` is the residual `**kwargs` dict, which at that call site
holds at most the resolved id field (`"ids"` or `"id"`) with the
caller-provided ids. -/
structure AddCall where
  text : List String
  metadata : List Metadata
  embedding_data : List String
  embedding_tensor : String
  embed_fn : List String → List (List Int)
  return_ids : Bool
  extra : Option (String × List String)

/-- One call made by the adapter against the vector engine. -/
inductive EngineCall where
  | add : AddCall → EngineCall
  | search : SearchCall → EngineCall

/-- The engine's response to a search: positionally aligned columns
(spec section 3 invariant), as returned by `DeepLakeVectorStore.search`. -/
structure SearchResult where
  score : List Int
  embedding : List (List Int)
  metadata : List Metadata
  text : List String

/-- The external vector engine, modelled by its contract (spec section 6):
`tensors` introspection, `add` returning assigned ids, and `search` returning
result columns. -/
structure Engine where
  tensors : List String
  add : AddCall → List String
  search : SearchCall → SearchResult

/-- Python exceptions raised by the adapter, tagged by site.  The spec's
taxonomy (section 7) maps them to `ConfigurationError` /
`InvalidArgumentError` / `UnsupportedOperationError`; in the source they are
`ValueError` (plus errors Python itself raises: `NameError` for an unbound
name, `AttributeError` for attribute access on `None`). -/
inductive PyError where
  | valueError : String → PyError
  | nameError : String → PyError
  | attributeError : String → PyError
deriving DecidableEq, Repr

/-- The `embedding` argument of `_search`
(`Union[List[float], np.ndarray]`, source line 234): a flat Python list, a
nested list carrying an accidental batch dimension, or an ndarray. -/
inductive PyEmbedding where
  | flat : List Int → PyEmbedding
  | nested : List (List Int) → PyEmbedding
  | ndarray : List Int → PyEmbedding
deriving DecidableEq, Repr

/-- Source lines 309-312: a list-form embedding is converted with
`np.array(..., dtype=np.float32)` and, if the result has rank above 1, only
the first row is kept.  A flat list yields a rank-1 array (unchanged values);
an ndarray is not a `list`, so the branch is skipped. -/
def normalizeEmbedding : PyEmbedding → List Int
  | .flat v => v
  | .nested vs => vs.headD []
  | .ndarray v => v

/-- The `embedding_function` argument of `_search` (source lines 291-295): an
`Embeddings` provider (its `embed_query` is used) or a bare callable. -/
inductive EmbedFnArg where
  | provider : Embeddings → EmbedFnArg
  | fn : (String → List Int) → EmbedFnArg

/-- The value `_search` returns: a plain document list, or document/score
pairs when `return_score` is set (source lines 333-344). -/
inductive SearchOutput where
  | docs : List Document → SearchOutput
  | withScores : List (Document × Int) → SearchOutput

/-- The engine search call issued by the vector path of `_search` (source
lines 314-321). -/
def vectorSearchCall (embedding : Option (List Int)) (k : Nat)
    (distance_metric : String) (filter : Option SearchFilter)
    (exec_option : Option String) : SearchCall :=
  { query := none, embedding := embedding, k := some k,
    distance_metric := some distance_metric, filter := filter,
    exec_option := exec_option,
    return_tensors := some ["embedding", "metadata", "text"] }

/-- The engine search call issued by the raw-query path (source lines
211-214). -/
def tqlSearchCall (q : Option String) (exec_option : Option String) :
    SearchCall :=
  { query := q, embedding := none, k := none, distance_metric := none,
    filter := none, exec_option := exec_option, return_tensors := none }

/-- Source lines 329-331:
`for meta, embed in zip(metadatas, embeddings): meta["embedding"] = embed;`
`metadatas.append(meta)`.
The loop mutates each zipped metadata dict in place, adding the `"embedding"`
key, and appends the very same (aliased) dict objects back onto the list it is
iterating; `zip` stops once `embeddings` is exhausted.  For
`embeddings.length ≤ metadatas.length` — which the engine's positional
alignment invariant guarantees — the resulting list value is: the enriched
prefix, then the untouched suffix of the originals, then the enriched prefix
once more (the appended aliases). -/
def mergeEmbeddings (metadatas : List Metadata)
    (embeddings : List (List Int)) : List Metadata :=
  let enriched := (metadatas.zip embeddings).map
    (fun p => dictSet p.1 "embedding" (MetaValue.vec p.2))
  (enriched ++ metadatas.drop embeddings.length) ++ enriched

/-- The adapter state captured at construction (source lines 105-134):
dataset path, the embedding provider, the resolved id field name, and the
opened engine handle. -/
structure DeepLake where
  dataset_path : String
  embedding_function : Option Embeddings
  id_tensor_name : String
  vectorstore : Engine

/-- `DeepLake.__init__` (source lines 42-134), given the engine handle that
opening `dataset_path` yields.  Source line 134 resolves the id field:
`"ids" if "ids" in self.vectorstore.tensors() else "id"`. -/
def DeepLake.init (dataset_path : String)
    (embedding_function : Option Embeddings) (engine : Engine) : DeepLake :=
  { dataset_path := dataset_path,
    embedding_function := embedding_function,
    id_tensor_name := if "ids" ∈ engine.tensors then "ids" else "id",
    vectorstore := engine }

/-- The extra keyword arguments a caller may pass to `add_texts`
(`**kwargs`, source line 141): possibly an `embedding_function` override,
plus arbitrary further keywords (modelled as opaque key/value strings). -/
structure AddTextsKwargs where
  embedding_function : Option (List String → List (List Int))
  other : List (String × String)

/-- `DeepLake.add_texts` (source lines 136-180).  Returns the Python return
value (or the raised error) together with the engine calls performed.

Source line 161 rebinds `kwargs = {}`, so every caller keyword argument —
including any `embedding_function` override — is discarded.  Lines 162-166 put
the caller ids (when truthy, i.e. a non-empty list) under the resolved id
field.  Lines 168-169 default `metadatas` to one empty dict per text.  The
`embedding_function` passed to the engine at line 176 is
`kwargs.get("embedding_function") or self._embedding_function.embed_documents`
evaluated on the rebound dict, whose only possible key is the id field, so the
lookup always misses and the provider captured at construction is used;
when no provider was configured this access raises `AttributeError`. -/
def DeepLake.add_texts (store : DeepLake) (texts : List String)
    (metadatas : Option (List Metadata)) (ids : Option (List String))
    (_kwargs : AddTextsKwargs) :
    Except PyError (List String) × List EngineCall :=
  let idExtra : Option (String × List String) :=
    match ids with
    | some l =>
        if l.isEmpty then none
        else if store.id_tensor_name = "ids" then some ("ids", l)
        else some ("id", l)
    | none => none
  let metas : List Metadata :=
    match metadatas with
    | some ms => ms
    | none => List.replicate texts.length []
  match store.embedding_function with
  | none => (.error (.attributeError "embed_documents_on_none"), [])
  | some ef =>
      let call : AddCall :=
        { text := texts, metadata := metas, embedding_data := texts,
          embedding_tensor := "embedding",
          embed_fn := ef.embed_documents, return_ids := true,
          extra := idExtra }
      (.ok (store.vectorstore.add call), [.add call])

/-- `DeepLake._search_tql` (source lines 182-229): issues the raw query
against the engine, builds one `Document` per result row from its text and
metadata, and only then — after the engine search — raises
`ValueError` when `return_score` is set (source lines 226-227). -/
def DeepLake._search_tql (store : DeepLake) (tql_query : Option String)
    (exec_option : Option String) (return_score : Bool) :
    Except PyError (List Document) × List EngineCall :=
  let call := tqlSearchCall tql_query exec_option
  let result := store.vectorstore.search call
  let docs := (result.text.zip result.metadata).map
    (fun p => Document.mk p.1 p.2)
  if return_score then (.error (.valueError "scores_with_tql"), [.search call])
  else (.ok docs, [.search call])

/-- Python truthiness of an optional string: `None` and `""` are falsy. -/
def strTruthy : Option String → Bool
  | some s => !(s = "")
  | none => false

/-- `DeepLake._search` (source lines 231-344).
Control flow: a truthy `tql_query` keyword delegates to `_search_tql` (lines
284-289); otherwise the embedding function is resolved (explicit argument
first, then the provider captured at construction, lines 291-299); when no
embedding was given, `ValueError` is raised if no embedding function is
available, else the query is embedded when truthy (lines 301-307); a list-form
embedding is normalized (lines 309-312); the engine is searched (lines
314-321); each result row's embedding is merged into its metadata (lines
329-331); documents are built positionally (lines 333-339) and zipped with
scores when `return_score` is set (lines 341-344). -/
def DeepLake._search (store : DeepLake) (query : Option String)
    (embedding : Option PyEmbedding) (embedding_function : Option EmbedFnArg)
    (k : Nat) (distance_metric : String) (filter : Option SearchFilter)
    (return_score : Bool) (exec_option : Option String)
    (tql_query : Option String) :
    Except PyError SearchOutput × List EngineCall :=
  if strTruthy tql_query then
    match store._search_tql tql_query exec_option return_score with
    | (.ok docs, calls) => (.ok (.docs docs), calls)
    | (.error e, calls) => (.error e, calls)
  else
    let efn : Option (String → List Int) :=
      match embedding_function with
      | some (.provider e) => some e.embed_query
      | some (.fn f) => some f
      | none =>
          match store.embedding_function with
          | some e => some e.embed_query
          | none => none
    match embedding, efn with
    | none, none =>
        (.error (.valueError "embedding_or_embedding_function_required"), [])
    | _, _ =>
        let embedded : Option PyEmbedding :=
          match embedding with
          | some e => some e
          | none =>
              match query, efn with
              | some q, some f => if q = "" then none else some (.flat (f q))
              | _, _ => none
        let embVec : Option (List Int) := embedded.map normalizeEmbedding
        let call := vectorSearchCall embVec k distance_metric filter exec_option
        let result := store.vectorstore.search call
        let metadatas := mergeEmbeddings result.metadata result.embedding
        let docs := (result.text.zip metadatas).map
          (fun p => Document.mk p.1 p.2)
        if return_score then
          (.ok (.withScores (docs.zip result.score)), [.search call])
        else (.ok (.docs docs), [.search call])

/-- The extra keyword arguments a caller may pass to `similarity_search`
(`**kwargs`, source line 351), forwarded verbatim to `_search`; absent
keywords fall back to the defaults of `_search` (source lines 231-241 —
note `return_score` defaults to `True` there). -/
structure SimilaritySearchKwargs where
  embedding_function : Option EmbedFnArg
  distance_metric : Option String
  filter : Option SearchFilter
  return_score : Option Bool
  exec_option : Option String
  tql_query : Option String

/-- A `similarity_search` call that passes no extra keyword arguments. -/
def noKwargs : SimilaritySearchKwargs :=
  { embedding_function := none, distance_metric := none, filter := none,
    return_score := none, exec_option := none, tql_query := none }

/-- A `similarity_search` call whose only extra keyword argument is
`return_score=False`. -/
def noScoreKwargs : SimilaritySearchKwargs :=
  { noKwargs with return_score := some false }

/-- `DeepLake.similarity_search` (source lines 346-378): raises `ValueError`
unless exactly one of `query` and `embedding` is supplied (lines 369-370),
then delegates to `_search` (lines 373-378). -/
def DeepLake.similarity_search (store : DeepLake) (query : Option String)
    (embedding : Option (List Int)) (k : Nat)
    (kwargs : SimilaritySearchKwargs) :
    Except PyError SearchOutput × List EngineCall :=
  if (embedding.isNone && query.isNone) ||
      (embedding.isSome && query.isSome) then
    (.error (.valueError "query_xor_embedding_required"), [])
  else
    store._search query (embedding.map PyEmbedding.flat)
      kwargs.embedding_function k (kwargs.distance_metric.getD "L2")
      kwargs.filter (kwargs.return_score.getD true) kwargs.exec_option
      kwargs.tql_query

/-- The extra keyword arguments a caller may pass to `from_texts`
(`**kwargs`, source line 389): possibly the deprecated `embedding` keyword
(an embedding-provider object, truthy whenever present), plus arbitrary
further keywords forwarded to the constructor. -/
structure FromTextsKwargs where
  embedding : Option Embeddings
  other : List (String × String)

/-- A `from_texts` call that passes no extra keyword arguments. -/
def noFromTextsKwargs : FromTextsKwargs :=
  { embedding := none, other := [] }

/-- `DeepLake.from_texts` (source lines 381-422), given the engine handle
that opening `dataset_path` yields.  Raises `ValueError` when the deprecated
`embedding` keyword is supplied (lines 407-411); otherwise it constructs the
adapter instance (lines 413-415) and then evaluates the arguments of the
`add_texts` call (lines 416-421) — where line 420 reads
`embedding.embed_documents` although no name `embedding` is bound in the
scope of `from_texts` (its parameter is `embedding_function`), so argument
evaluation raises `NameError` and `add_texts` is never entered. -/
def DeepLake.from_texts (texts : List String)
    (embedding_function : Option Embeddings)
    (metadatas : Option (List Metadata)) (ids : Option (List String))
    (dataset_path : String) (kwargs : FromTextsKwargs) (engine : Engine) :
    Except PyError DeepLake × List EngineCall :=
  if kwargs.embedding.isSome then
    (.error (.valueError "deprecated_embedding_keyword"), [])
  else
    let _deeplake_dataset := DeepLake.init dataset_path embedding_function
      engine
    let _ := texts
    let _ := metadatas
    let _ := ids
    (.error (.nameError "embedding"), [])

/-- A concrete embedding provider used to instantiate theorems. -/
def sampleEmbeddings : Embeddings :=
  { embed_query := fun s => [Int.ofNat s.length],
    embed_documents := fun l => l.map (fun s => [Int.ofNat s.length]) }

/-- A concrete engine search response with two aligned result rows. -/
def sampleSearchResult : SearchResult :=
  { score := [5, 3],
    embedding := [[1, 2], [3, 4]],
    metadata := [[("a", MetaValue.num 1)], []],
    text := ["doc one", "doc two"] }

/-- A concrete engine whose dataset uses the legacy `"id"` field, whose `add`
assigns one id per text, and whose `search` always returns
`sampleSearchResult`. -/
def sampleEngine : Engine :=
  { tensors := ["text", "metadata", "embedding", "id"],
    add := fun c => c.text.map (fun t => t ++ "-id"),
    search := fun _ => sampleSearchResult }

/-- A concrete engine whose dataset uses the `"ids"` field name. -/
def sampleEngineIds : Engine :=
  { sampleEngine with tensors := ["text", "metadata", "embedding", "ids"] }

/-- A concrete adapter over `sampleEngine` with `sampleEmbeddings`
configured. -/
def sampleStore : DeepLake :=
  DeepLake.init "./deeplake/" (some sampleEmbeddings) sampleEngine

/-- `zipWith` ignores any tail of the right list beyond the length of the
left list. -/
theorem zipWith_append_right_of_le {α β γ : Type} (f : α → β → γ)
    (l : List α) (l₂ l₃ : List β) (h : l.length ≤ l₂.length) :
    List.zipWith f l (l₂ ++ l₃) = List.zipWith f l l₂ := by
  induction l generalizing l₂ with
  | nil => simp
  | cons a t ih =>
    cases l₂ with
    | nil => simp at h
    | cons b t₂ =>
      simp only [List.cons_append, List.zipWith_cons_cons]
      rw [ih]
      simpa using h

/-- Claim C1: `from_texts` on a well-formed input (no deprecated keyword)
raises `NameError` for the unbound name `embedding` while evaluating the
arguments of its `add_texts` call: no insertion is performed and no instance
is returned. -/
theorem from_texts_nameError_on_sample :
    DeepLake.from_texts ["hello"] (some sampleEmbeddings) none none
        "./deeplake/" noFromTextsKwargs sampleEngine =
      (Except.error (PyError.nameError "embedding"), []) := rfl

/-- Claim C4: a raw-query search requesting scores fails with the
`UnsupportedOperationError` of the spec taxonomy (the `ValueError` of source
lines 226-227); without scores it returns one `Document` per result row,
built from that row's text and metadata. -/
theorem search_tql_contract (store : DeepLake) (q : Option String)
    (exec : Option String) :
    ((store._search_tql q exec true).fst =
        Except.error (PyError.valueError "scores_with_tql"))
    ∧ ((store._search_tql q exec false).fst =
        Except.ok
          (((store.vectorstore.search (tqlSearchCall q exec)).text.zip
              (store.vectorstore.search (tqlSearchCall q exec)).metadata).map
            (fun p => Document.mk p.1 p.2))) :=
  ⟨rfl, rfl⟩

/-- Claim C8, counterexample: at a concrete raw-query call requesting scores,
the adapter fails as claimed but its engine-call trace is non-empty — the raw
query was executed against the engine before the error was raised, so the
failing call does not perform zero engine searches. -/
theorem search_tql_engine_call_before_error_counterexample :
    (sampleStore._search_tql (some "SELECT *") none true).fst =
        Except.error (PyError.valueError "scores_with_tql")
    ∧ (sampleStore._search_tql (some "SELECT *") none true).snd =
        [EngineCall.search (tqlSearchCall (some "SELECT *") none)] :=
  ⟨rfl, rfl⟩

/-- Claim C8, amended: when the raw-query search path fails because scores
were requested, the error is raised synchronously but only after the raw
query has been executed against the vector engine — the failing call performs
exactly one engine search, whose results are discarded. -/
theorem search_tql_score_error_after_engine_search (store : DeepLake)
    (q : Option String) (exec : Option String) :
    store._search_tql q exec true =
      (Except.error (PyError.valueError "scores_with_tql"),
        [EngineCall.search (tqlSearchCall q exec)]) := rfl

/-- Claim C6: for every list of texts and every ids argument, `add_texts`
with `metadatas` omitted returns the same value and performs the same engine
calls as `add_texts` given one empty mapping per text. -/
theorem add_texts_default_metadatas (store : DeepLake) (texts : List String)
    (ids : Option (List String)) (kwargs : AddTextsKwargs) :
    store.add_texts texts none ids kwargs =
      store.add_texts texts (some (List.replicate texts.length [])) ids
        kwargs := rfl

/-- `_search` never raises the mutual-exclusion error of
`similarity_search`: its only errors are the raw-query score error and the
missing-embedding-source error. -/
theorem _search_no_xor_error (store : DeepLake) (query : Option String)
    (embedding : Option PyEmbedding)
    (embedding_function : Option EmbedFnArg) (k : Nat)
    (distance_metric : String) (filter : Option SearchFilter)
    (return_score : Bool) (exec_option : Option String)
    (tql_query : Option String) :
    (store._search query embedding embedding_function k distance_metric
        filter return_score exec_option tql_query).fst ≠
      Except.error (PyError.valueError "query_xor_embedding_required") := by
  unfold DeepLake._search DeepLake._search_tql
  cases return_score <;>
    (split
     · simp
     · rcases embedding with _ | e <;>
         rcases embedding_function with _ | (p | f) <;>
           rcases hs : store.embedding_function with _ | q <;> simp [hs])

/-- Claim C3: `similarity_search` raises the mutual-exclusion
`InvalidArgumentError` exactly when called with neither query nor embedding
or with both; with exactly one of the two it delegates to `_search` (which
never raises that error). -/
theorem similarity_search_arg_validation (store : DeepLake)
    (query : Option String) (embedding : Option (List Int)) (k : Nat)
    (kwargs : SimilaritySearchKwargs) :
    (((store.similarity_search query embedding k kwargs).fst =
        Except.error (PyError.valueError "query_xor_embedding_required")) ↔
      ((query = none ∧ embedding = none) ∨
        (query ≠ none ∧ embedding ≠ none)))
    ∧ ((query = none) ≠ (embedding = none) →
        store.similarity_search query embedding k kwargs =
          store._search query (embedding.map PyEmbedding.flat)
            kwargs.embedding_function k (kwargs.distance_metric.getD "L2")
            kwargs.filter (kwargs.return_score.getD true) kwargs.exec_option
            kwargs.tql_query) := by
  constructor
  · rcases query with _ | q <;> rcases embedding with _ | e <;>
      simp [DeepLake.similarity_search, _search_no_xor_error]
  · intro h
    rcases query with _ | q <;> rcases embedding with _ | e <;>
      simp_all [DeepLake.similarity_search]

/-- Witness for claim C3 at a concrete call with only an embedding. -/
theorem similarity_search_arg_validation_witness :
    (((sampleStore.similarity_search none (some [1, 2]) 4 noKwargs).fst =
        Except.error (PyError.valueError "query_xor_embedding_required")) ↔
      (((none : Option String) = none ∧ (some [1, 2] : Option (List Int)) = none) ∨
        ((none : Option String) ≠ none ∧ (some [1, 2] : Option (List Int)) ≠ none)))
    ∧ (((none : Option String) = none) ≠ ((some [1, 2] : Option (List Int)) = none) →
        sampleStore.similarity_search none (some [1, 2]) 4 noKwargs =
          sampleStore._search none ((some [1, 2] : Option (List Int)).map PyEmbedding.flat)
            noKwargs.embedding_function 4 (noKwargs.distance_metric.getD "L2")
            noKwargs.filter (noKwargs.return_score.getD true)
            noKwargs.exec_option noKwargs.tql_query) :=
  similarity_search_arg_validation sampleStore none (some [1, 2]) 4 noKwargs

/-- Claim C5: `add_texts` with texts and no ids performs exactly one engine
insertion, hands the engine the texts as embedding data together with the
configured provider's `embed_documents`, and returns the ids the engine
assigns — exactly one per text (in the engine's order) whenever the engine
honours its one-id-per-text contract. -/
theorem add_texts_returns_engine_ids (store : DeepLake)
    (texts : List String) (kwargs : AddTextsKwargs) (ef : Embeddings)
    (hef : store.embedding_function = some ef)
    (hadd : ∀ c : AddCall,
      (store.vectorstore.add c).length = c.text.length) :
    ∃ call ids,
      store.add_texts texts none none kwargs =
        (Except.ok ids, [EngineCall.add call])
      ∧ ids = store.vectorstore.add call
      ∧ ids.length = texts.length
      ∧ call.text = texts
      ∧ call.embedding_data = texts
      ∧ call.embed_fn = ef.embed_documents := by
  refine ⟨AddCall.mk texts (List.replicate texts.length []) texts
      "embedding" ef.embed_documents true none, _, ?_, rfl, ?_, rfl, rfl, rfl⟩
  · simp [DeepLake.add_texts, hef]
  · rw [hadd]

/-- Witness for claim C5 at a concrete store and two texts. -/
theorem add_texts_returns_engine_ids_witness :
    sampleStore.embedding_function = some sampleEmbeddings
    ∧ (∀ c : AddCall,
        (sampleStore.vectorstore.add c).length = c.text.length)
    ∧ ∃ call ids,
        sampleStore.add_texts ["a", "b"] none none ⟨none, []⟩ =
          (Except.ok ids, [EngineCall.add call])
        ∧ ids = sampleStore.vectorstore.add call
        ∧ ids.length = (["a", "b"] : List String).length
        ∧ call.text = ["a", "b"]
        ∧ call.embedding_data = ["a", "b"]
        ∧ call.embed_fn = sampleEmbeddings.embed_documents :=
  ⟨rfl, fun c => by simp [sampleStore, sampleEngine, DeepLake.init],
    add_texts_returns_engine_ids sampleStore ["a", "b"] ⟨none, []⟩
      sampleEmbeddings rfl
      (fun c => by simp [sampleStore, sampleEngine, DeepLake.init])⟩

/-- Claim C7: construction resolves the id field to `"ids"` exactly when the
opened dataset's field names include `"ids"` (and to `"id"` otherwise), and
`add_texts` with caller-provided (non-empty) ids succeeds and passes them to
the engine under that resolved field name in every insertion it performs. -/
theorem id_field_resolution (path : String) (efOpt : Option Embeddings)
    (engine : Engine) (texts : List String)
    (metadatas : Option (List Metadata)) (l : List String)
    (kwargs : AddTextsKwargs) (ef : Embeddings)
    (hne : l ≠ []) (hef : efOpt = some ef) :
    (("ids" ∈ engine.tensors →
        (DeepLake.init path efOpt engine).id_tensor_name = "ids")
      ∧ ("ids" ∉ engine.tensors →
        (DeepLake.init path efOpt engine).id_tensor_name = "id"))
    ∧ (((DeepLake.init path efOpt engine).add_texts texts metadatas
          (some l) kwargs).fst.isOk = true)
    ∧ (∀ c, EngineCall.add c ∈
          ((DeepLake.init path efOpt engine).add_texts texts metadatas
            (some l) kwargs).snd →
        c.extra =
          some ((DeepLake.init path efOpt engine).id_tensor_name, l)) := by
  subst hef
  refine ⟨⟨fun h => by simp [DeepLake.init, h],
    fun h => by simp [DeepLake.init, h]⟩, ?_, ?_⟩
  · by_cases hmem : "ids" ∈ engine.tensors <;>
      simp [DeepLake.add_texts, DeepLake.init, hmem, hne, Except.isOk, Except.toBool]
  · intro c hc
    by_cases hmem : "ids" ∈ engine.tensors <;>
      simp [DeepLake.add_texts, DeepLake.init, hmem, hne] at hc <;>
        simp [hc, DeepLake.init, hmem]

/-- Witness for claim C7 at a concrete engine whose dataset uses the
`"ids"` field name. -/
theorem id_field_resolution_witness :
    ((["x"] : List String) ≠ [])
    ∧ ((some sampleEmbeddings : Option Embeddings) = some sampleEmbeddings)
    ∧ ((("ids" ∈ sampleEngineIds.tensors →
          (DeepLake.init "p" (some sampleEmbeddings)
            sampleEngineIds).id_tensor_name = "ids")
        ∧ ("ids" ∉ sampleEngineIds.tensors →
          (DeepLake.init "p" (some sampleEmbeddings)
            sampleEngineIds).id_tensor_name = "id"))
      ∧ (((DeepLake.init "p" (some sampleEmbeddings)
            sampleEngineIds).add_texts ["a"] none (some ["x"])
            ⟨none, []⟩).fst.isOk = true)
      ∧ (∀ c, EngineCall.add c ∈
            ((DeepLake.init "p" (some sampleEmbeddings)
              sampleEngineIds).add_texts ["a"] none (some ["x"])
              ⟨none, []⟩).snd →
          c.extra =
            some ((DeepLake.init "p" (some sampleEmbeddings)
              sampleEngineIds).id_tensor_name, ["x"]))) :=
  ⟨by decide, rfl,
    id_field_resolution "p" (some sampleEmbeddings) sampleEngineIds ["a"]
      none ["x"] ⟨none, []⟩ sampleEmbeddings (by decide) rfl⟩

/-- An `add_texts` call carrying extra keyword arguments, including an
`embedding_function` override. -/
def overrideKwargs : AddTextsKwargs :=
  { embedding_function := some (fun l => l.map (fun _ => [0])),
    other := [("batch_size", "9")] }

/-- Claim C9: `add_texts` discards every extra keyword argument it receives
(source line 161 rebinds `kwargs = {}`): any two calls agreeing on texts,
metadatas and ids return the same value and perform the same engine calls,
and every insertion performed uses the embedding function of the provider
configured at construction. -/
theorem add_texts_ignores_kwargs (store : DeepLake) (texts : List String)
    (metadatas : Option (List Metadata)) (ids : Option (List String))
    (kw₁ kw₂ : AddTextsKwargs) :
    store.add_texts texts metadatas ids kw₁ =
      store.add_texts texts metadatas ids kw₂
    ∧ (∀ ef, store.embedding_function = some ef →
        ∀ c, EngineCall.add c ∈
            (store.add_texts texts metadatas ids kw₁).snd →
          c.embed_fn = ef.embed_documents) := by
  refine ⟨rfl, ?_⟩
  intro ef hef c hc
  rcases ids with _ | l
  · simp [DeepLake.add_texts, hef] at hc
    simp [hc]
  · by_cases hl : l.isEmpty <;>
      by_cases hids : store.id_tensor_name = "ids" <;>
        simp [DeepLake.add_texts, hef, hl, hids] at hc <;>
          simp [hc]

/-- Witness for claim C9: a call with an embedding-function override and
extra keywords agrees with a call passing nothing extra. -/
theorem add_texts_ignores_kwargs_witness :
    (sampleStore.add_texts ["a"] none none overrideKwargs =
      sampleStore.add_texts ["a"] none none ⟨none, []⟩)
    ∧ (∀ ef, sampleStore.embedding_function = some ef →
        ∀ c, EngineCall.add c ∈
            (sampleStore.add_texts ["a"] none none overrideKwargs).snd →
          c.embed_fn = ef.embed_documents) :=
  add_texts_ignores_kwargs sampleStore ["a"] none none overrideKwargs
    ⟨none, []⟩

/-- Claim C10: `similarity_search` with the empty string as query, no
embedding, and a provider configured raises no error: the query is falsy, so
no embedding is derived, and the engine search is invoked with the embedding
keyword absent. -/
theorem similarity_search_empty_query (store : DeepLake) (k : Nat)
    (ef : Embeddings) (hef : store.embedding_function = some ef) :
    ((store.similarity_search (some "") none k noKwargs).fst.isOk = true)
    ∧ (store.similarity_search (some "") none k noKwargs).snd =
        [EngineCall.search (vectorSearchCall none k "L2" none none)] := by
  constructor <;>
    simp [DeepLake.similarity_search, DeepLake._search, noKwargs, hef,
      strTruthy, Except.isOk, Except.toBool]

/-- Witness for claim C10 at a concrete store. -/
theorem similarity_search_empty_query_witness :
    sampleStore.embedding_function = some sampleEmbeddings
    ∧ ((sampleStore.similarity_search (some "") none 4 noKwargs).fst.isOk =
        true)
    ∧ (sampleStore.similarity_search (some "") none 4 noKwargs).snd =
        [EngineCall.search (vectorSearchCall none 4 "L2" none none)] :=
  ⟨rfl,
    similarity_search_empty_query sampleStore 4 sampleEmbeddings rfl⟩

/-- The result rows the engine returns for the vector search that
`similarity_search` issues for embedding `e` and count `k`. -/
def engineRows (store : DeepLake) (e : List Int) (k : Nat) : SearchResult :=
  store.vectorstore.search (vectorSearchCall (some e) k "L2" none none)

/-- Claim C2: with a fixed embedding and `return_score` false, when the
engine returns `n` positionally aligned result rows with `n ≤ k` (the
engine's own result-count contract), `similarity_search` performs exactly
that one engine search and returns `min k n` Documents, in the engine's
order, each carrying the engine-provided metadata with the row's embedding
vector added under the `"embedding"` key. -/
theorem similarity_search_result_shape (store : DeepLake) (e : List Int)
    (k : Nat)
    (hm : (engineRows store e k).metadata.length =
      (engineRows store e k).text.length)
    (he : (engineRows store e k).embedding.length =
      (engineRows store e k).text.length)
    (hk : (engineRows store e k).text.length ≤ k) :
    store.similarity_search none (some e) k noScoreKwargs =
      (Except.ok (SearchOutput.docs
          (List.zipWith
            (fun t me =>
              Document.mk t (dictSet me.1 "embedding" (MetaValue.vec me.2)))
            (engineRows store e k).text
            ((engineRows store e k).metadata.zip
              (engineRows store e k).embedding))),
        [EngineCall.search (vectorSearchCall (some e) k "L2" none none)])
    ∧ (List.zipWith
          (fun t me =>
            Document.mk t (dictSet me.1 "embedding" (MetaValue.vec me.2)))
          (engineRows store e k).text
          ((engineRows store e k).metadata.zip
            (engineRows store e k).embedding)).length =
        min k (engineRows store e k).text.length := by
  have hmerge : mergeEmbeddings (engineRows store e k).metadata
      (engineRows store e k).embedding =
      ((engineRows store e k).metadata.zip
          (engineRows store e k).embedding).map
        (fun p => dictSet p.1 "embedding" (MetaValue.vec p.2)) ++
      ((engineRows store e k).metadata.zip
          (engineRows store e k).embedding).map
        (fun p => dictSet p.1 "embedding" (MetaValue.vec p.2)) := by
    simp only [mergeEmbeddings]
    rw [he, ← hm, List.drop_length, List.append_nil]
  have key : store.similarity_search none (some e) k noScoreKwargs =
      (Except.ok (SearchOutput.docs
          (((engineRows store e k).text.zip
              (mergeEmbeddings (engineRows store e k).metadata
                (engineRows store e k).embedding)).map
            (fun p => Document.mk p.1 p.2))),
        [EngineCall.search (vectorSearchCall (some e) k "L2" none none)]) := by
    rcases hstore : store.embedding_function with _ | p <;>
      simp [DeepLake.similarity_search, DeepLake._search, noScoreKwargs,
        noKwargs, strTruthy, hstore, normalizeEmbedding, engineRows]
  have hdocs :
      ((engineRows store e k).text.zip
          (mergeEmbeddings (engineRows store e k).metadata
            (engineRows store e k).embedding)).map
        (fun p => Document.mk p.1 p.2) =
      List.zipWith
        (fun t me =>
          Document.mk t (dictSet me.1 "embedding" (MetaValue.vec me.2)))
        (engineRows store e k).text
        ((engineRows store e k).metadata.zip
          (engineRows store e k).embedding) := by
    rw [hmerge, List.zip_eq_zipWith,
      zipWith_append_right_of_le _ _ _ _
        (by simp [List.length_zip, hm, he]),
      List.zipWith_map_right, List.map_zipWith]
  refine ⟨?_, ?_⟩
  · rw [key, hdocs]
  · rw [List.length_zipWith, List.length_zip, hm, he]
    simp [min_self, min_eq_right hk]

/-- Witness for claim C2 at a concrete store whose engine returns two
aligned rows. -/
theorem similarity_search_result_shape_witness :
    ((engineRows sampleStore [9, 9] 4).metadata.length =
      (engineRows sampleStore [9, 9] 4).text.length)
    ∧ ((engineRows sampleStore [9, 9] 4).embedding.length =
      (engineRows sampleStore [9, 9] 4).text.length)
    ∧ ((engineRows sampleStore [9, 9] 4).text.length ≤ 4)
    ∧ (sampleStore.similarity_search none (some [9, 9]) 4 noScoreKwargs =
        (Except.ok (SearchOutput.docs
            (List.zipWith
              (fun t me =>
                Document.mk t
                  (dictSet me.1 "embedding" (MetaValue.vec me.2)))
              (engineRows sampleStore [9, 9] 4).text
              ((engineRows sampleStore [9, 9] 4).metadata.zip
                (engineRows sampleStore [9, 9] 4).embedding))),
          [EngineCall.search
            (vectorSearchCall (some [9, 9]) 4 "L2" none none)])
      ∧ (List.zipWith
            (fun t me =>
              Document.mk t (dictSet me.1 "embedding" (MetaValue.vec me.2)))
            (engineRows sampleStore [9, 9] 4).text
            ((engineRows sampleStore [9, 9] 4).metadata.zip
              (engineRows sampleStore [9, 9] 4).embedding)).length =
          min 4 (engineRows sampleStore [9, 9] 4).text.length) :=
  ⟨rfl, rfl, by decide,
    similarity_search_result_shape sampleStore [9, 9] 4 rfl rfl (by decide)⟩
